import Mathlib

/-!
Verification development for the GATT-server conversion layer declared in
`src/driver_gatts.h` of pc-ble-driver-js: the converter entities
(managed-object / native-struct marshalling), the event envelope model, and
the event kind-to-name lookup table.

Conversion method bodies live in `driver_gatts.cpp`, which is not part of the
sources available here; where a property depends on such a body, the
definition is modelled from the specification and its doc comment says so.
-/

/- ### Native event discriminants -/

/-- Modelled from the spec: the native event discriminants are declared in the
external SDK header `ble_gatts.h` (not part of this repository's sources) as
consecutive enumerators starting at the GATTS event base `0x50`. -/
def BLE_GATTS_EVT_WRITE : Nat := 0x50

/-- Discriminant for the read/write authorize request event. -/
def BLE_GATTS_EVT_RW_AUTHORIZE_REQUEST : Nat := 0x51

/-- Discriminant for the system-attribute-missing event. -/
def BLE_GATTS_EVT_SYS_ATTR_MISSING : Nat := 0x52

/-- Discriminant for the handle-value-confirmation event. -/
def BLE_GATTS_EVT_HVC : Nat := 0x53

/-- Discriminant for the service-changed-confirm event. -/
def BLE_GATTS_EVT_SC_CONFIRM : Nat := 0x54

/-- Discriminant for the timeout event. -/
def BLE_GATTS_EVT_TIMEOUT : Nat := 0x55

/- ### The kind-to-name lookup table (driver_gatts.h lines 44-51) -/

/-- The process-wide event name map from `driver_gatts.h`. `NAME_MAP_ENTRY(X)`
(from `common.h`, modelled from the spec) pairs the discriminant with its
stringized identifier. -/
def gatts_event_name_map : List (Nat × String) :=
  [ (BLE_GATTS_EVT_WRITE, "BLE_GATTS_EVT_WRITE"),
    (BLE_GATTS_EVT_RW_AUTHORIZE_REQUEST, "BLE_GATTS_EVT_RW_AUTHORIZE_REQUEST"),
    (BLE_GATTS_EVT_SYS_ATTR_MISSING, "BLE_GATTS_EVT_SYS_ATTR_MISSING"),
    (BLE_GATTS_EVT_HVC, "BLE_GATTS_EVT_HVC"),
    (BLE_GATTS_EVT_SC_CONFIRM, "BLE_GATTS_EVT_SC_CONFIRM"),
    (BLE_GATTS_EVT_TIMEOUT, "BLE_GATTS_EVT_TIMEOUT") ]

/- ### Converter entities: the declaration surface of driver_gatts.h

Each `BleToJs<T>` subclass in `driver_gatts.h` declares `ToJs()`
(native-to-managed) and/or `ToNative()` (managed-to-native); the two Boolean
tables below record exactly which overrides each class declares. -/

/-- The eleven `BleToJs<T>` converter subclasses declared in `driver_gatts.h`. -/
inductive ConverterEntity where
  | gattsEnableParameters
  | gattsAttributeMetadata
  | gattsCharacteristicPresentationFormat
  | gattsCharacteristicMetadata
  | gattsAttribute
  | gattsCharacteristicDefinitionHandles
  | gattsHVXParams
  | gattsValue
  | gattGattsReplyReadWriteAuthorizeParams
  | gattsAuthorizeParameters
  | gattsReadEvent
  deriving DecidableEq, Repr, Fintype

/-- Whether the class declares a `ToJs()` override (native-to-managed
direction), as written in `driver_gatts.h`. -/
def declaresToJs : ConverterEntity → Bool
  | .gattsEnableParameters => true                  -- line 58
  | .gattsAttributeMetadata => false
  | .gattsCharacteristicPresentationFormat => false
  | .gattsCharacteristicMetadata => false
  | .gattsAttribute => false
  | .gattsCharacteristicDefinitionHandles => true   -- line 100
  | .gattsHVXParams => false
  | .gattsValue => true                             -- line 116
  | .gattGattsReplyReadWriteAuthorizeParams => false
  | .gattsAuthorizeParameters => true               -- line 133
  | .gattsReadEvent => true                         -- line 174

/-- Whether the class declares a `ToNative()` override (managed-to-native
direction), as written in `driver_gatts.h`. -/
def declaresToNative : ConverterEntity → Bool
  | .gattsEnableParameters => true                  -- line 59
  | .gattsAttributeMetadata => true                 -- line 68
  | .gattsCharacteristicPresentationFormat => true  -- line 76
  | .gattsCharacteristicMetadata => true            -- line 84
  | .gattsAttribute => true                         -- line 92
  | .gattsCharacteristicDefinitionHandles => false
  | .gattsHVXParams => true                         -- line 108
  | .gattsValue => true                             -- line 117
  | .gattGattsReplyReadWriteAuthorizeParams => true -- line 125
  | .gattsAuthorizeParameters => true               -- line 134
  | .gattsReadEvent => false

/- ### Native event payload structs (layouts from the SDK header) -/

/-- Modelled from the spec: `ble_gatts_evt_write_t` (external SDK header), the
write event payload: handle, operation, authorization flag, offset, and the
written bytes. -/
structure ble_gatts_evt_write_t where
  handle : Nat
  op : Nat
  auth_required : Bool
  offset : Nat
  data : List Nat
  deriving DecidableEq, Repr

/-- Modelled from the spec: `ble_gatts_evt_read_t` (external SDK header), the
read payload nested inside an authorize request: handle and offset. -/
structure ble_gatts_evt_read_t where
  handle : Nat
  offset : Nat
  deriving DecidableEq, Repr

/-- Modelled from the spec: `ble_gatts_evt_rw_authorize_request_t` (external
SDK header): a request-kind tag selecting a read or a write payload. -/
structure ble_gatts_evt_rw_authorize_request_t where
  type : Nat
  request : ble_gatts_evt_read_t ⊕ ble_gatts_evt_write_t
  deriving DecidableEq, Repr

/-- Modelled from the spec: `ble_gatts_evt_sys_attr_missing_t` (external SDK
header): the hint field. -/
structure ble_gatts_evt_sys_attr_missing_t where
  hint : Nat
  deriving DecidableEq, Repr

/-- Modelled from the spec: `ble_gatts_evt_hvc_t` (external SDK header): the
confirmed attribute handle. -/
structure ble_gatts_evt_hvc_t where
  handle : Nat
  deriving DecidableEq, Repr

/-- Modelled from the spec: `ble_gatts_evt_timeout_t` (external SDK header):
the timeout source; shared by the SC-Confirm and Timeout event wrappers. -/
structure ble_gatts_evt_timeout_t where
  src : Nat
  deriving DecidableEq, Repr

/- Default (value-initialized) payloads, matching `new EventType()` in
`BleDriverGattsEvent::ToNative` which value-initializes every field. -/

instance : Inhabited ble_gatts_evt_write_t :=
  ⟨{ handle := 0, op := 0, auth_required := false, offset := 0, data := [] }⟩

instance : Inhabited ble_gatts_evt_read_t :=
  ⟨{ handle := 0, offset := 0 }⟩

instance : Inhabited ble_gatts_evt_rw_authorize_request_t :=
  ⟨{ type := 0, request := Sum.inl default }⟩

instance : Inhabited ble_gatts_evt_sys_attr_missing_t := ⟨{ hint := 0 }⟩

instance : Inhabited ble_gatts_evt_hvc_t := ⟨{ handle := 0 }⟩

instance : Inhabited ble_gatts_evt_timeout_t := ⟨{ src := 0 }⟩

/- ### The event envelope (driver_gatts.h lines 137-158) -/

/-- The state carried by `BleDriverGattsEvent<EventType>`: event id, timestamp,
connection handle, and the native payload (driver_gatts.h lines 144-147). -/
structure BleDriverGattsEvent (EventType : Type) where
  evt_id : Nat
  timestamp : String
  conn_handle : Nat
  evt : EventType
  deriving DecidableEq, Repr

/-- Modelled from the spec: `ConversionUtility::valueToString` (defined in
`common.cpp`, not among the available sources) looks the numeric value up in
the name map and returns the supplied default string when no entry matches. -/
def ConversionUtility.valueToString (value : Nat) (map : List (Nat × String))
    (dflt : String) : String :=
  match map.find? (fun kv => kv.1 == value) with
  | some kv => kv.2
  | none => dflt

/-- Method `BleDriverGattsEvent::ToNative` (driver_gatts.h line 155): returns a fresh
value-initialized payload struct, ignoring the event's own contents. -/
def BleDriverGattsEvent.toNative {EventType : Type} [Inhabited EventType]
    (_ : BleDriverGattsEvent EventType) : EventType :=
  default

/-- Method `BleDriverGattsEvent::getEventName` (driver_gatts.h line 157). -/
def BleDriverGattsEvent.getEventName {EventType : Type}
    (e : BleDriverGattsEvent EventType) : String :=
  ConversionUtility.valueToString e.evt_id gatts_event_name_map
    "Unknown Gatts Event"

/- ### The six concrete event wrapper constructors (driver_gatts.h 160-220).
Each wrapper's constructor forwards a fixed compile-time discriminant. -/

/-- Class `GattsWriteEvent` constructor (driver_gatts.h lines 163-164). -/
def GattsWriteEvent (timestamp : String) (conn_handle : Nat)
    (evt : ble_gatts_evt_write_t) : BleDriverGattsEvent ble_gatts_evt_write_t :=
  { evt_id := BLE_GATTS_EVT_WRITE, timestamp := timestamp,
    conn_handle := conn_handle, evt := evt }

/-- Class `GattsRWAuthorizeRequestEvent` constructor (driver_gatts.h lines 180-181). -/
def GattsRWAuthorizeRequestEvent (timestamp : String) (conn_handle : Nat)
    (evt : ble_gatts_evt_rw_authorize_request_t) :
    BleDriverGattsEvent ble_gatts_evt_rw_authorize_request_t :=
  { evt_id := BLE_GATTS_EVT_RW_AUTHORIZE_REQUEST, timestamp := timestamp,
    conn_handle := conn_handle, evt := evt }

/-- Class `GattsSystemAttributeMissingEvent` constructor (driver_gatts.h 189-190). -/
def GattsSystemAttributeMissingEvent (timestamp : String) (conn_handle : Nat)
    (evt : ble_gatts_evt_sys_attr_missing_t) :
    BleDriverGattsEvent ble_gatts_evt_sys_attr_missing_t :=
  { evt_id := BLE_GATTS_EVT_SYS_ATTR_MISSING, timestamp := timestamp,
    conn_handle := conn_handle, evt := evt }

/-- Class `GattsHVCEvent` constructor (driver_gatts.h lines 198-199). -/
def GattsHVCEvent (timestamp : String) (conn_handle : Nat)
    (evt : ble_gatts_evt_hvc_t) : BleDriverGattsEvent ble_gatts_evt_hvc_t :=
  { evt_id := BLE_GATTS_EVT_HVC, timestamp := timestamp,
    conn_handle := conn_handle, evt := evt }

/-- Class `GattsSCConfirmEvent` constructor (driver_gatts.h lines 207-208); its
payload type is `ble_gatts_evt_timeout_t`, the same as `GattsTimeoutEvent`. -/
def GattsSCConfirmEvent (timestamp : String) (conn_handle : Nat)
    (evt : ble_gatts_evt_timeout_t) :
    BleDriverGattsEvent ble_gatts_evt_timeout_t :=
  { evt_id := BLE_GATTS_EVT_SC_CONFIRM, timestamp := timestamp,
    conn_handle := conn_handle, evt := evt }

/-- Class `GattsTimeoutEvent` constructor (driver_gatts.h lines 216-217). -/
def GattsTimeoutEvent (timestamp : String) (conn_handle : Nat)
    (evt : ble_gatts_evt_timeout_t) :
    BleDriverGattsEvent ble_gatts_evt_timeout_t :=
  { evt_id := BLE_GATTS_EVT_TIMEOUT, timestamp := timestamp,
    conn_handle := conn_handle, evt := evt }

/- ### Event wrapper classes as a finite enumeration (for claims about the
class-to-discriminant and class-to-payload-struct assignment) -/

/-- The six event wrapper classes of `driver_gatts.h`. -/
inductive GattsEventClass where
  | writeEvent
  | rwAuthorizeRequestEvent
  | systemAttributeMissingEvent
  | hvcEvent
  | scConfirmEvent
  | timeoutEvent
  deriving DecidableEq, Repr, Fintype

/-- The compile-time discriminant each wrapper class passes to the
`BleDriverGattsEvent` base constructor. -/
def eventClassId : GattsEventClass → Nat
  | .writeEvent => BLE_GATTS_EVT_WRITE
  | .rwAuthorizeRequestEvent => BLE_GATTS_EVT_RW_AUTHORIZE_REQUEST
  | .systemAttributeMissingEvent => BLE_GATTS_EVT_SYS_ATTR_MISSING
  | .hvcEvent => BLE_GATTS_EVT_HVC
  | .scConfirmEvent => BLE_GATTS_EVT_SC_CONFIRM
  | .timeoutEvent => BLE_GATTS_EVT_TIMEOUT

/-- Names of the native payload struct types, to compare which wrapper classes
share a payload type. -/
inductive PayloadStruct where
  | write_t
  | rw_authorize_request_t
  | sys_attr_missing_t
  | hvc_t
  | timeout_t
  deriving DecidableEq, Repr

/-- The native payload struct type each wrapper class instantiates
`BleDriverGattsEvent` with, as written in `driver_gatts.h`. -/
def eventClassPayload : GattsEventClass → PayloadStruct
  | .writeEvent => .write_t
  | .rwAuthorizeRequestEvent => .rw_authorize_request_t
  | .systemAttributeMissingEvent => .sys_attr_missing_t
  | .hvcEvent => .hvc_t
  | .scConfirmEvent => .timeout_t
  | .timeoutEvent => .timeout_t

/- ### Managed-object shapes and conversion bodies.

The `ToJs`/`ToNative` bodies are defined in `driver_gatts.cpp`, which is not
among the available sources; the definitions below are modelled from the
specification (sections 3, 4.1 and 8): managed-to-native conversion validates
lengths and required fields and fails with `ConversionError`; native-to-managed
conversion deep-copies the native struct into a managed object. -/

/-- A conversion failure, carrying the offending field's name (spec section
4.1/7: `ConversionError` names the missing or invalid field). -/
structure ConversionError where
  field : String
  deriving DecidableEq, Repr

/-- Modelled from the spec: `ble_gatts_enable_params_t` (external SDK header)
holds the service-changed-characteristic enable flag. -/
structure ble_gatts_enable_params_t where
  service_changed : Bool
  deriving DecidableEq, Repr

/-- Managed shape of the enable parameters (spec section 3, EnableParameters). -/
structure JsGattsEnableParameters where
  service_changed : Bool
  deriving DecidableEq, Repr

/-- Modelled from the spec: `GattsEnableParameters::ToNative`
(`driver_gatts.cpp`, body not among available sources): populate the native
struct from the managed flag. -/
def GattsEnableParameters.toNative (js : JsGattsEnableParameters) :
    ble_gatts_enable_params_t :=
  { service_changed := js.service_changed }

/-- Modelled from the spec: `GattsEnableParameters::ToJs`
(`driver_gatts.cpp`, body not among available sources): project the native
struct to a managed object. -/
def GattsEnableParameters.toJs (native : ble_gatts_enable_params_t) :
    JsGattsEnableParameters :=
  { service_changed := native.service_changed }

/-- Modelled from the spec: `ble_gatts_value_t` (external SDK header): a
declared length, an offset, and the value bytes. -/
structure ble_gatts_value_t where
  len : Nat
  offset : Nat
  p_value : List Nat
  deriving DecidableEq, Repr

/-- Managed shape of a Value (spec section 3): an offset, a declared length,
and a variable-length byte buffer. -/
structure JsGattsValue where
  offset : Nat
  len : Nat
  value : List Nat
  deriving DecidableEq, Repr

/-- Modelled from the spec: `GattsValue::ToNative` (`driver_gatts.cpp`, body
not among available sources): fails with `ConversionError` when the current
buffer exceeds the declared length, otherwise populates a fresh native struct
owning a copy of the bytes (spec sections 4.1 and 8). -/
def GattsValue.toNative (js : JsGattsValue) :
    Except ConversionError ble_gatts_value_t :=
  if js.value.length > js.len then
    .error { field := "value" }
  else
    .ok { len := js.len, offset := js.offset, p_value := js.value }

/-- Modelled from the spec: `GattsValue::ToJs` (`driver_gatts.cpp`, body not
among available sources): deep-copy the native struct into a managed object. -/
def GattsValue.toJs (native : ble_gatts_value_t) : JsGattsValue :=
  { offset := native.offset, len := native.len, value := native.p_value }

/-- Modelled from the spec: `ble_gatts_attr_md_t` (external SDK header):
permissions, variable-length flag, location. -/
structure ble_gatts_attr_md_t where
  read_perm : Nat
  write_perm : Nat
  vlen : Bool
  vloc : Nat
  deriving DecidableEq, Repr

/-- Modelled from the spec: `ble_gatts_attr_t` (external SDK header): UUID,
optional metadata pointer, init/max lengths, offset and the value buffer. -/
structure ble_gatts_attr_t where
  p_uuid : Nat
  p_attr_md : Option ble_gatts_attr_md_t
  init_len : Nat
  init_offs : Nat
  max_len : Nat
  p_value : List Nat
  deriving DecidableEq, Repr

/-- Managed shape of an Attribute (spec section 3): a UUID, optional
metadata, a value buffer with a declared maximum, and an init offset. -/
structure JsGattsAttribute where
  uuid : Nat
  attr_md : Option ble_gatts_attr_md_t
  init_offs : Nat
  max_len : Nat
  value : List Nat
  deriving DecidableEq, Repr

/-- Modelled from the spec: `GattsAttribute::ToNative` (`driver_gatts.cpp`,
body not among available sources): fails with `ConversionError` when the value
buffer exceeds the declared maximum length; the optional metadata sub-object
is only materialized when the managed object supplies it (spec section 4.1). -/
def GattsAttribute.toNative (js : JsGattsAttribute) :
    Except ConversionError ble_gatts_attr_t :=
  if js.value.length > js.max_len then
    .error { field := "value" }
  else
    .ok { p_uuid := js.uuid, p_attr_md := js.attr_md,
          init_len := js.value.length, init_offs := js.init_offs,
          max_len := js.max_len, p_value := js.value }

/-- Modelled from the spec: `ble_gatts_hvx_params_t` (external SDK header):
handle, notification-vs-indication type, offset, declared length, data. -/
structure ble_gatts_hvx_params_t where
  handle : Nat
  type : Nat
  offset : Nat
  p_len : Nat
  p_data : List Nat
  deriving DecidableEq, Repr

/-- Managed shape of HVXParams (spec section 3): handle, type tag, offset,
declared length and the value buffer. -/
structure JsGattsHVXParams where
  handle : Nat
  type : Nat
  offset : Nat
  len : Nat
  data : List Nat
  deriving DecidableEq, Repr

/-- Modelled from the spec: `GattsHVXParams::ToNative` (`driver_gatts.cpp`,
body not among available sources): fails with `ConversionError` when the data
buffer exceeds the declared length (spec section 8). -/
def GattsHVXParams.toNative (js : JsGattsHVXParams) :
    Except ConversionError ble_gatts_hvx_params_t :=
  if js.data.length > js.len then
    .error { field := "data" }
  else
    .ok { handle := js.handle, type := js.type, offset := js.offset,
          p_len := js.len, p_data := js.data }

/-- Modelled from the spec: `ble_gatts_authorize_params_t` (external SDK
header): gatt status code, update flag, and the embedded value fields. -/
structure ble_gatts_authorize_params_t where
  gatt_status : Nat
  update : Bool
  value : ble_gatts_value_t
  deriving DecidableEq, Repr

/-- Managed shape of AuthorizeParameters (spec section 3): update flag, gatt
status code, and an embedded Value. -/
structure JsGattsAuthorizeParameters where
  gatt_status : Nat
  update : Bool
  value : JsGattsValue
  deriving DecidableEq, Repr

/-- Modelled from the spec: `GattsAuthorizeParameters::ToNative`
(`driver_gatts.cpp`, body not among available sources): converts the embedded
Value, propagating its `ConversionError`. -/
def GattsAuthorizeParameters.toNative (js : JsGattsAuthorizeParameters) :
    Except ConversionError ble_gatts_authorize_params_t := do
  let v ← GattsValue.toNative js.value
  return { gatt_status := js.gatt_status, update := js.update, value := v }

/-- Modelled from the spec: `GattsAuthorizeParameters::ToJs`
(`driver_gatts.cpp`, body not among available sources): deep-copy into a
managed object, converting the embedded value. -/
def GattsAuthorizeParameters.toJs (native : ble_gatts_authorize_params_t) :
    JsGattsAuthorizeParameters :=
  { gatt_status := native.gatt_status, update := native.update,
    value := GattsValue.toJs native.value }

/-- Modelled from the spec: authorize-operation type tag for a read request
(external SDK header `BLE_GATTS_AUTHORIZE_TYPE_READ`). -/
def BLE_GATTS_AUTHORIZE_TYPE_READ : Nat := 1

/-- Modelled from the spec: authorize-operation type tag for a write request
(external SDK header `BLE_GATTS_AUTHORIZE_TYPE_WRITE`). -/
def BLE_GATTS_AUTHORIZE_TYPE_WRITE : Nat := 2

/-- Modelled from the spec: `ble_gatts_rw_authorize_reply_params_t` (external
SDK header): a type tag and the per-kind authorize parameters; at most one
branch is meaningful, selected by the tag. -/
structure ble_gatts_rw_authorize_reply_params_t where
  type : Nat
  read : Option ble_gatts_authorize_params_t
  write : Option ble_gatts_authorize_params_t
  deriving DecidableEq, Repr

/-- Managed shape of ReplyReadWriteAuthorizeParams (spec section 3): a
discriminated union keyed by request kind, each branch carrying its own
AuthorizeParameters. -/
structure JsGattsReplyReadWriteAuthorizeParams where
  read : Option JsGattsAuthorizeParameters
  write : Option JsGattsAuthorizeParameters
  deriving DecidableEq, Repr

/-- Modelled from the spec: `GattGattsReplyReadWriteAuthorizeParams::ToNative`
(`driver_gatts.cpp`, body not among available sources): succeeds only when
exactly one of the read and write branches is populated (spec sections 3 and
8), converting that branch's AuthorizeParameters. -/
def GattGattsReplyReadWriteAuthorizeParams.toNative
    (js : JsGattsReplyReadWriteAuthorizeParams) :
    Except ConversionError ble_gatts_rw_authorize_reply_params_t :=
  match js.read, js.write with
  | some r, none => do
    let p ← GattsAuthorizeParameters.toNative r
    return { type := BLE_GATTS_AUTHORIZE_TYPE_READ, read := some p,
             write := none }
  | none, some w => do
    let p ← GattsAuthorizeParameters.toNative w
    return { type := BLE_GATTS_AUTHORIZE_TYPE_WRITE, read := none,
             write := some p }
  | some _, some _ => .error { field := "type" }
  | none, none => .error { field := "type" }

/-- Class `GattsReadEvent` (driver_gatts.h lines 169-175) is a plain `BleToJs`
converter over the read payload: it carries only the native read struct, with
no discriminant, timestamp or connection handle. -/
structure GattsReadEvent where
  read : ble_gatts_evt_read_t
  deriving DecidableEq, Repr

/- ### Helper lemmas (shared) -/

/-- Shared helper: a successful `GattsValue.toNative` is inverted by
`GattsValue.toJs`. -/
theorem gattsValue_toJs_toNative (x : JsGattsValue) (n : ble_gatts_value_t)
    (h : GattsValue.toNative x = .ok n) : GattsValue.toJs n = x := by
  unfold GattsValue.toNative at h
  split at h
  · exact absurd h (by simp)
  · cases h
    cases x
    rfl

/- ### Claims -/

/-- C1 (counterexample): the claim that EnableParameters is the only converter
entity declaring both conversion directions is false: `GattsValue` declares
both `ToJs` (driver_gatts.h line 116) and `ToNative` (line 117). -/
theorem entity_both_directions_not_unique :
    ¬ (∀ e : ConverterEntity, e ≠ ConverterEntity.gattsEnableParameters →
        ¬ (declaresToJs e = true ∧ declaresToNative e = true)) := by
  intro h
  exact h ConverterEntity.gattsValue (by decide) (by decide)

/-- C1 (amended): the converter entities declaring both `ToJs` and `ToNative`
are exactly EnableParameters, Value and AuthorizeParameters; every other
entity declares at most one direction. -/
theorem entity_both_directions_exactly_three :
    ∀ e : ConverterEntity,
      (declaresToJs e = true ∧ declaresToNative e = true) ↔
        (e = ConverterEntity.gattsEnableParameters ∨
         e = ConverterEntity.gattsValue ∨
         e = ConverterEntity.gattsAuthorizeParameters) := by
  decide

/-- C2: event payloads travel the native-to-managed direction only: for every
event wrapper, `ToNative` yields the value-initialized (empty) payload struct,
never one populated from the managed event, for all six event kinds. -/
theorem events_never_to_native :
    (∀ (ts : String) (ch : Nat) (p : ble_gatts_evt_write_t),
      (GattsWriteEvent ts ch p).toNative = default) ∧
    (∀ (ts : String) (ch : Nat) (p : ble_gatts_evt_rw_authorize_request_t),
      (GattsRWAuthorizeRequestEvent ts ch p).toNative = default) ∧
    (∀ (ts : String) (ch : Nat) (p : ble_gatts_evt_sys_attr_missing_t),
      (GattsSystemAttributeMissingEvent ts ch p).toNative = default) ∧
    (∀ (ts : String) (ch : Nat) (p : ble_gatts_evt_hvc_t),
      (GattsHVCEvent ts ch p).toNative = default) ∧
    (∀ (ts : String) (ch : Nat) (p : ble_gatts_evt_timeout_t),
      (GattsSCConfirmEvent ts ch p).toNative = default) ∧
    (∀ (ts : String) (ch : Nat) (p : ble_gatts_evt_timeout_t),
      (GattsTimeoutEvent ts ch p).toNative = default) := by
  refine ⟨?_, ?_, ?_, ?_, ?_, ?_⟩ <;> intro ts ch p <;> rfl

/-- C7: SC-Confirm and Timeout are two distinct event kinds (distinct wrapper
classes with distinct discriminant constants) that instantiate the event
envelope with the identical native payload struct type. -/
theorem sc_confirm_timeout_distinct_kinds_shared_payload :
    GattsEventClass.scConfirmEvent ≠ GattsEventClass.timeoutEvent ∧
    eventClassId GattsEventClass.scConfirmEvent ≠
      eventClassId GattsEventClass.timeoutEvent ∧
    BLE_GATTS_EVT_SC_CONFIRM ≠ BLE_GATTS_EVT_TIMEOUT ∧
    eventClassPayload GattsEventClass.scConfirmEvent =
      eventClassPayload GattsEventClass.timeoutEvent := by
  decide

/-- C8: the process-wide kind-to-name table holds exactly the six inbound
event discriminants, in this order, each exactly once and each mapped to a
nonempty human-readable name. -/
theorem name_map_exactly_six_entries :
    gatts_event_name_map.map Prod.fst =
      [BLE_GATTS_EVT_WRITE, BLE_GATTS_EVT_RW_AUTHORIZE_REQUEST,
       BLE_GATTS_EVT_SYS_ATTR_MISSING, BLE_GATTS_EVT_HVC,
       BLE_GATTS_EVT_SC_CONFIRM, BLE_GATTS_EVT_TIMEOUT] ∧
    (gatts_event_name_map.map Prod.fst).Nodup ∧
    gatts_event_name_map.length = 6 ∧
    (gatts_event_name_map.map Prod.snd).all (fun s => !s.isEmpty) = true := by
  refine ⟨rfl, by decide, rfl, by decide⟩

/-- C9: each event wrapper class fixes its discriminant at construction: for
all constructor arguments, the built event's kind equals the class's constant
and its resolved name equals that constant's table name, independent of
payload and metadata. -/
theorem event_kind_fixed_per_class :
    (∀ (ts : String) (ch : Nat) (p : ble_gatts_evt_write_t),
      (GattsWriteEvent ts ch p).evt_id = BLE_GATTS_EVT_WRITE ∧
      (GattsWriteEvent ts ch p).getEventName = "BLE_GATTS_EVT_WRITE") ∧
    (∀ (ts : String) (ch : Nat) (p : ble_gatts_evt_rw_authorize_request_t),
      (GattsRWAuthorizeRequestEvent ts ch p).evt_id =
        BLE_GATTS_EVT_RW_AUTHORIZE_REQUEST ∧
      (GattsRWAuthorizeRequestEvent ts ch p).getEventName =
        "BLE_GATTS_EVT_RW_AUTHORIZE_REQUEST") ∧
    (∀ (ts : String) (ch : Nat) (p : ble_gatts_evt_sys_attr_missing_t),
      (GattsSystemAttributeMissingEvent ts ch p).evt_id =
        BLE_GATTS_EVT_SYS_ATTR_MISSING ∧
      (GattsSystemAttributeMissingEvent ts ch p).getEventName =
        "BLE_GATTS_EVT_SYS_ATTR_MISSING") ∧
    (∀ (ts : String) (ch : Nat) (p : ble_gatts_evt_hvc_t),
      (GattsHVCEvent ts ch p).evt_id = BLE_GATTS_EVT_HVC ∧
      (GattsHVCEvent ts ch p).getEventName = "BLE_GATTS_EVT_HVC") ∧
    (∀ (ts : String) (ch : Nat) (p : ble_gatts_evt_timeout_t),
      (GattsSCConfirmEvent ts ch p).evt_id = BLE_GATTS_EVT_SC_CONFIRM ∧
      (GattsSCConfirmEvent ts ch p).getEventName =
        "BLE_GATTS_EVT_SC_CONFIRM") ∧
    (∀ (ts : String) (ch : Nat) (p : ble_gatts_evt_timeout_t),
      (GattsTimeoutEvent ts ch p).evt_id = BLE_GATTS_EVT_TIMEOUT ∧
      (GattsTimeoutEvent ts ch p).getEventName = "BLE_GATTS_EVT_TIMEOUT") := by
  refine ⟨?_, ?_, ?_, ?_, ?_, ?_⟩ <;> intro ts ch p <;> exact ⟨rfl, rfl⟩

/-- C3: for every entity declaring both directions (EnableParameters, Value,
AuthorizeParameters), native-to-managed inverts managed-to-native: whenever
`toNative` succeeds, `toJs` of the produced native struct returns the original
managed object, preserving buffer bytes, lengths and embedded sub-objects. -/
theorem roundtrip_bidirectional_entities :
    (∀ x : JsGattsEnableParameters,
      GattsEnableParameters.toJs (GattsEnableParameters.toNative x) = x) ∧
    (∀ (x : JsGattsValue) (n : ble_gatts_value_t),
      GattsValue.toNative x = .ok n → GattsValue.toJs n = x) ∧
    (∀ (x : JsGattsAuthorizeParameters) (n : ble_gatts_authorize_params_t),
      GattsAuthorizeParameters.toNative x = .ok n →
        GattsAuthorizeParameters.toJs n = x) := by
  refine ⟨fun x => rfl, gattsValue_toJs_toNative, ?_⟩
  intro x n h
  unfold GattsAuthorizeParameters.toNative at h
  cases hv : GattsValue.toNative x.value with
  | error e => rw [hv] at h; simp [Bind.bind, Except.bind] at h
  | ok v =>
    rw [hv] at h
    simp only [Bind.bind, Except.bind, pure, Except.pure, Except.ok.injEq] at h
    subst h
    obtain ⟨gs, up, val⟩ := x
    simp only [GattsAuthorizeParameters.toJs,
               JsGattsAuthorizeParameters.mk.injEq, true_and]
    exact gattsValue_toJs_toNative _ _ hv

/-- C3 (witness): concrete round trips through `toNative` for Value and
AuthorizeParameters. -/
theorem roundtrip_bidirectional_entities_witness :
    GattsValue.toJs { len := 2, offset := 0, p_value := [1, 2] } =
      { offset := 0, len := 2, value := [1, 2] } ∧
    GattsAuthorizeParameters.toJs
      { gatt_status := 0, update := true,
        value := { len := 1, offset := 0, p_value := [7] } } =
      { gatt_status := 0, update := true,
        value := { offset := 0, len := 1, value := [7] } } :=
  ⟨roundtrip_bidirectional_entities.2.1
      { offset := 0, len := 2, value := [1, 2] } _ rfl,
   roundtrip_bidirectional_entities.2.2
      { gatt_status := 0, update := true,
        value := { offset := 0, len := 1, value := [7] } } _ rfl⟩

/-- C4: resolving the name of an event whose discriminant lies outside the six
known GATTS event discriminants yields the string "Unknown Gatts Event"
rather than an error, for any payload type and any metadata. -/
theorem unknown_discriminant_event_name (id : Nat)
    (h : id ∉ [BLE_GATTS_EVT_WRITE, BLE_GATTS_EVT_RW_AUTHORIZE_REQUEST,
               BLE_GATTS_EVT_SYS_ATTR_MISSING, BLE_GATTS_EVT_HVC,
               BLE_GATTS_EVT_SC_CONFIRM, BLE_GATTS_EVT_TIMEOUT]) :
    ∀ (E : Type) (ts : String) (ch : Nat) (p : E),
      BleDriverGattsEvent.getEventName
        { evt_id := id, timestamp := ts, conn_handle := ch, evt := p } =
      "Unknown Gatts Event" := by
  intro E ts ch p
  simp only [BLE_GATTS_EVT_WRITE, BLE_GATTS_EVT_RW_AUTHORIZE_REQUEST,
             BLE_GATTS_EVT_SYS_ATTR_MISSING, BLE_GATTS_EVT_HVC,
             BLE_GATTS_EVT_SC_CONFIRM, BLE_GATTS_EVT_TIMEOUT,
             List.mem_cons, List.not_mem_nil, not_or, or_false] at h
  have hnone : gatts_event_name_map.find? (fun kv => kv.1 == id) = none := by
    rw [List.find?_eq_none]
    intro kv hkv
    simp only [gatts_event_name_map, BLE_GATTS_EVT_WRITE,
               BLE_GATTS_EVT_RW_AUTHORIZE_REQUEST,
               BLE_GATTS_EVT_SYS_ATTR_MISSING, BLE_GATTS_EVT_HVC,
               BLE_GATTS_EVT_SC_CONFIRM, BLE_GATTS_EVT_TIMEOUT,
               List.mem_cons, List.not_mem_nil, or_false] at hkv
    rcases hkv with rfl | rfl | rfl | rfl | rfl | rfl <;>
      simp only [beq_iff_eq] <;> omega
  simp [BleDriverGattsEvent.getEventName, ConversionUtility.valueToString,
        hnone]

/-- C4 (witness): discriminant `0x56`, just past the known range, resolves to
"Unknown Gatts Event". -/
theorem unknown_discriminant_event_name_witness :
    BleDriverGattsEvent.getEventName
      { evt_id := 0x56, timestamp := "t", conn_handle := 1,
        evt := (default : ble_gatts_evt_write_t) } =
    "Unknown Gatts Event" :=
  unknown_discriminant_event_name 0x56 (by decide) ble_gatts_evt_write_t "t" 1
    default

/-- C5: every Attribute, Value or HVXParams native struct produced by
`toNative` satisfies current length ≤ declared maximum length, and every
managed input violating the bound makes `toNative` fail with a
`ConversionError` instead of producing a struct. -/
theorem tonative_length_invariant :
    (∀ (x : JsGattsAttribute) (n : ble_gatts_attr_t),
      GattsAttribute.toNative x = .ok n → n.init_len ≤ n.max_len) ∧
    (∀ x : JsGattsAttribute, x.max_len < x.value.length →
      GattsAttribute.toNative x = .error { field := "value" }) ∧
    (∀ (x : JsGattsValue) (n : ble_gatts_value_t),
      GattsValue.toNative x = .ok n → n.p_value.length ≤ n.len) ∧
    (∀ x : JsGattsValue, x.len < x.value.length →
      GattsValue.toNative x = .error { field := "value" }) ∧
    (∀ (x : JsGattsHVXParams) (n : ble_gatts_hvx_params_t),
      GattsHVXParams.toNative x = .ok n → n.p_data.length ≤ n.p_len) ∧
    (∀ x : JsGattsHVXParams, x.len < x.data.length →
      GattsHVXParams.toNative x = .error { field := "data" }) := by
  refine ⟨?_, ?_, ?_, ?_, ?_, ?_⟩
  · intro x n h
    unfold GattsAttribute.toNative at h
    split at h
    · simp at h
    · next hle =>
      simp only [Except.ok.injEq] at h
      subst h
      simp only
      omega
  · intro x h
    unfold GattsAttribute.toNative
    split
    · rfl
    · next hng => exact absurd h (by omega)
  · intro x n h
    unfold GattsValue.toNative at h
    split at h
    · simp at h
    · next hle =>
      simp only [Except.ok.injEq] at h
      subst h
      simp only
      omega
  · intro x h
    unfold GattsValue.toNative
    split
    · rfl
    · next hng => exact absurd h (by omega)
  · intro x n h
    unfold GattsHVXParams.toNative at h
    split at h
    · simp at h
    · next hle =>
      simp only [Except.ok.injEq] at h
      subst h
      simp only
      omega
  · intro x h
    unfold GattsHVXParams.toNative
    split
    · rfl
    · next hng => exact absurd h (by omega)

/-- C5 (witness): concrete in-bound structs and concrete out-of-bound
failures for Attribute, Value and HVXParams. -/
theorem tonative_length_invariant_witness :
    ((1 : Nat) ≤ 2) ∧
    (GattsAttribute.toNative
      { uuid := 1, attr_md := none, init_offs := 0, max_len := 0,
        value := [9] } = .error { field := "value" }) ∧
    ((2 : Nat) ≤ 2) ∧
    (GattsValue.toNative { offset := 0, len := 1, value := [1, 2] } =
      .error { field := "value" }) ∧
    ((1 : Nat) ≤ 3) ∧
    (GattsHVXParams.toNative
      { handle := 7, type := 1, offset := 0, len := 0, data := [4] } =
      .error { field := "data" }) :=
  ⟨tonative_length_invariant.1
      { uuid := 1, attr_md := none, init_offs := 0, max_len := 2,
        value := [5] } _ rfl,
   tonative_length_invariant.2.1
      { uuid := 1, attr_md := none, init_offs := 0, max_len := 0,
        value := [9] } (by decide),
   tonative_length_invariant.2.2.1 { offset := 0, len := 2, value := [1, 2] }
      _ rfl,
   tonative_length_invariant.2.2.2.1 { offset := 0, len := 1, value := [1, 2] }
      (by decide),
   tonative_length_invariant.2.2.2.2.1
      { handle := 7, type := 1, offset := 0, len := 3, data := [4] } _ rfl,
   tonative_length_invariant.2.2.2.2.2
      { handle := 7, type := 1, offset := 0, len := 0, data := [4] }
      (by decide)⟩

/-- C6: every native reply struct produced by
`GattGattsReplyReadWriteAuthorizeParams::ToNative` carries exactly one of the
read and write branches, tagged with the matching request kind; a managed
reply populating both branches, or neither, fails with `ConversionError`. -/
theorem reply_authorize_exclusive :
    (∀ (x : JsGattsReplyReadWriteAuthorizeParams)
       (n : ble_gatts_rw_authorize_reply_params_t),
      GattGattsReplyReadWriteAuthorizeParams.toNative x = .ok n →
        (n.read.isSome = true ∧ n.write = none ∧
          n.type = BLE_GATTS_AUTHORIZE_TYPE_READ) ∨
        (n.read = none ∧ n.write.isSome = true ∧
          n.type = BLE_GATTS_AUTHORIZE_TYPE_WRITE)) ∧
    (∀ x : JsGattsReplyReadWriteAuthorizeParams,
      (x.read.isSome = true ∧ x.write.isSome = true) ∨
        (x.read = none ∧ x.write = none) →
      ∃ e, GattGattsReplyReadWriteAuthorizeParams.toNative x = .error e) := by
  constructor
  · intro x n h
    obtain ⟨r, w⟩ := x
    unfold GattGattsReplyReadWriteAuthorizeParams.toNative at h
    cases r with
    | some rp =>
      cases w with
      | some wp => simp at h
      | none =>
        dsimp only at h
        cases hv : GattsAuthorizeParameters.toNative rp with
        | error e => rw [hv] at h; simp [Bind.bind, Except.bind] at h
        | ok v =>
          rw [hv] at h
          simp only [Bind.bind, Except.bind, pure, Except.pure,
                     Except.ok.injEq] at h
          subst h
          exact Or.inl ⟨rfl, rfl, rfl⟩
    | none =>
      cases w with
      | none => simp at h
      | some wp =>
        dsimp only at h
        cases hv : GattsAuthorizeParameters.toNative wp with
        | error e => rw [hv] at h; simp [Bind.bind, Except.bind] at h
        | ok v =>
          rw [hv] at h
          simp only [Bind.bind, Except.bind, pure, Except.pure,
                     Except.ok.injEq] at h
          subst h
          exact Or.inr ⟨rfl, rfl, rfl⟩
  · intro x hx
    obtain ⟨r, w⟩ := x
    cases r with
    | some rp =>
      cases w with
      | some wp =>
        exact ⟨{ field := "type" }, rfl⟩
      | none => simp at hx
    | none =>
      cases w with
      | some wp => simp at hx
      | none => exact ⟨{ field := "type" }, rfl⟩

/-- C6 (witness): a read-only reply converts to a native struct whose read
branch alone is populated; a reply with neither branch, and one with both
branches, fail. -/
theorem reply_authorize_exclusive_witness :
    ((true = true ∧ (none : Option ble_gatts_authorize_params_t) = none ∧
        BLE_GATTS_AUTHORIZE_TYPE_READ = BLE_GATTS_AUTHORIZE_TYPE_READ) ∨
      ((some { gatt_status := 0, update := true,
               value := { len := 0, offset := 0, p_value := [] } } :
          Option ble_gatts_authorize_params_t) = none ∧
        false = true ∧
        BLE_GATTS_AUTHORIZE_TYPE_READ = BLE_GATTS_AUTHORIZE_TYPE_WRITE)) ∧
    (∃ e, GattGattsReplyReadWriteAuthorizeParams.toNative
        { read := none, write := none } = .error e) ∧
    (∃ e, GattGattsReplyReadWriteAuthorizeParams.toNative
        { read := some { gatt_status := 0, update := true,
                         value := { offset := 0, len := 0, value := [] } },
          write := some { gatt_status := 0, update := true,
                          value := { offset := 0, len := 0, value := [] } } } =
      .error e) :=
  ⟨reply_authorize_exclusive.1
      { read := some { gatt_status := 0, update := true,
                       value := { offset := 0, len := 0, value := [] } },
        write := none } _ rfl,
   reply_authorize_exclusive.2 { read := none, write := none }
      (Or.inr ⟨rfl, rfl⟩),
   reply_authorize_exclusive.2
      { read := some { gatt_status := 0, update := true,
                       value := { offset := 0, len := 0, value := [] } },
        write := some { gatt_status := 0, update := true,
                        value := { offset := 0, len := 0, value := [] } } }
      (Or.inl ⟨rfl, rfl⟩)⟩

/-- C10: `GattsReadEvent` is a plain native-to-managed payload converter, not
an event envelope: its state is exactly the native read payload (no
discriminant, timestamp or connection handle), the kind-to-name table has no
read entry, it declares `ToJs` only, and the read payload is what nests
inside an RW-authorize-request event. -/
theorem read_event_plain_converter :
    (∀ a b : GattsReadEvent, a.read = b.read ↔ a = b) ∧
    ((gatts_event_name_map.map Prod.snd).all
      (fun s => s != "BLE_GATTS_EVT_READ") = true) ∧
    declaresToJs ConverterEntity.gattsReadEvent = true ∧
    declaresToNative ConverterEntity.gattsReadEvent = false ∧
    (∀ r : ble_gatts_evt_read_t,
      ∃ req : ble_gatts_evt_rw_authorize_request_t,
        req.request = Sum.inl r) := by
  refine ⟨?_, by decide, rfl, rfl,
          fun r => ⟨⟨BLE_GATTS_AUTHORIZE_TYPE_READ, Sum.inl r⟩, rfl⟩⟩
  intro a b
  constructor
  · intro h
    cases a
    cases b
    simpa using h
  · intro h
    rw [h]
